import Mathlib

/-!
Shallow embedding of the `azurerm_healthcare_service` resource of
terraform-provider-azurerm: the expand/flatten mappers between the
Terraform configuration shape and the Azure healthcareapis API structs,
and the Create/Update, Read and Delete lifecycle handlers.

Go pointers (`*T`) are modelled as `Option T`; Go `nil` is `none`.
Go `map[string]interface{}` values produced by the flatten code are
modelled as records whose fields are `Option`s: a `none` field is a map
in which the corresponding key is absent.  External collaborators
(the Azure client, long-running-operation futures) are modelled as an
oracle record giving the outcome observed at each call site of a single
handler invocation.  Machine `int32` conversions are modelled by a
wrap-around function on `Int`.
-/

/-- API struct `healthcareapis.ServiceAccessPolicyEntry`: a single access
policy, carrying an optional object id (`*string` in Go). -/
structure ServiceAccessPolicyEntry where
  objectID : Option String := none
deriving DecidableEq, Repr

/-- API struct `healthcareapis.ServiceCosmosDbConfigurationInfo`. -/
structure ServiceCosmosDbConfigurationInfo where
  offerThroughput : Option Int := none
deriving DecidableEq, Repr

/-- API struct `healthcareapis.ServiceCorsConfigurationInfo`: every field is
a pointer in Go, hence an `Option` here. -/
structure ServiceCorsConfigurationInfo where
  origins : Option (List String) := none
  headers : Option (List String) := none
  methods : Option (List String) := none
  maxAge : Option Int := none
  allowCredentials : Option Bool := none
deriving DecidableEq, Repr

/-- API struct `healthcareapis.ServiceAuthenticationConfigurationInfo`. -/
structure ServiceAuthenticationConfigurationInfo where
  authority : Option String := none
  audience : Option String := none
  smartProxyEnabled : Option Bool := none
deriving DecidableEq, Repr

/-- API struct `healthcareapis.ServicesProperties`. -/
structure ServicesProperties where
  accessPolicies : Option (List ServiceAccessPolicyEntry) := none
  cosmosDbConfiguration : Option ServiceCosmosDbConfigurationInfo := none
  corsConfiguration : Option ServiceCorsConfigurationInfo := none
  authenticationConfiguration : Option ServiceAuthenticationConfigurationInfo := none
deriving DecidableEq, Repr

/-- API struct `healthcareapis.ServicesDescription`: the remote resource
representation returned by `Get` and submitted by `CreateOrUpdate`. -/
structure ServicesDescription where
  id : Option String := none
  location : Option String := none
  kind : String := ""
  tags : List (String × String) := []
  properties : Option ServicesProperties := none
deriving DecidableEq, Repr

/-- Flattened access-policy entry: the `map[string]interface{}` built by
`FlattenHealthcareAccessPolicies`; its only possible key is `object_id`,
and a `none` field models the key being absent from the map. -/
structure AccessPolicyRaw where
  object_id : Option String := none
deriving DecidableEq, Repr

/-- Flattened `authentication_configuration` block as built inline by
`resourceArmHealthcareServiceRead`; `none` fields model absent keys. -/
structure AuthRaw where
  authority : Option String := none
  audience : Option String := none
  smart_proxy_enabled : Option Bool := none
deriving DecidableEq, Repr

/-- Flattened `cors_configuration` block as built inline by
`resourceArmHealthcareServiceRead`; `none` fields model absent keys. -/
structure CorsRaw where
  allowed_origins : Option (List String) := none
  allowed_headers : Option (List String) := none
  allowed_methods : Option (List String) := none
  max_age_in_seconds : Option Int := none
  allow_credentials : Option Bool := none
deriving DecidableEq, Repr

/-- Schema-defaulted view of one `authentication_configuration` block, as
`d.Get` returns it: every schema key is present, unset optional keys
carry the zero value of their type. -/
structure AuthConfigAttr where
  authority : String := ""
  audience : String := ""
  smart_proxy_enabled : Bool := false
deriving DecidableEq, Repr

/-- Schema-defaulted view of one `cors_configuration` block, as `d.Get`
returns it: every schema key present, unset keys zero-valued. -/
structure CorsConfigAttr where
  allowed_origins : List String := []
  allowed_headers : List String := []
  allowed_methods : List String := []
  max_age_in_seconds : Int := 0
  allow_credentials : Bool := false
deriving DecidableEq, Repr

/-- `d.Get` on an `authentication_configuration` block: fills absent map
keys with the schema zero values. -/
def AuthRaw.withDefaults (a : AuthRaw) : AuthConfigAttr :=
  { authority := a.authority.getD ""
    audience := a.audience.getD ""
    smart_proxy_enabled := a.smart_proxy_enabled.getD false }

/-- `d.Get` on a `cors_configuration` block: fills absent map keys with
the schema zero values. -/
def CorsRaw.withDefaults (c : CorsRaw) : CorsConfigAttr :=
  { allowed_origins := c.allowed_origins.getD []
    allowed_headers := c.allowed_headers.getD []
    allowed_methods := c.allowed_methods.getD []
    max_age_in_seconds := c.max_age_in_seconds.getD 0
    allow_credentials := c.allow_credentials.getD false }

/-- The `schema.ResourceData` state visible to this resource: the stored
identifier plus the schema fields of `resourceArmHealthcareService`.
Block lists are stored in their map shape (`AuthRaw`/`CorsRaw`); reading
them back through `d.Get` applies `withDefaults`. -/
structure ResourceData where
  id : String := ""
  name : String := ""
  resource_group_name : String := ""
  location : String := ""
  kind : String := "fhir"
  cosmosdb_throughput : Int := 1000
  access_policy_object_ids : List String := []
  authentication_configuration : List AuthRaw := []
  cors_configuration : List CorsRaw := []
  tags : List (String × String) := []
deriving DecidableEq, Repr

/-- `d.Get("authentication_configuration")`: the defaulted block list. -/
def ResourceData.getAuthConfiguration (d : ResourceData) : List AuthConfigAttr :=
  d.authentication_configuration.map AuthRaw.withDefaults

/-- `d.Get("cors_configuration")`: the defaulted block list. -/
def ResourceData.getCorsConfiguration (d : ResourceData) : List CorsConfigAttr :=
  d.cors_configuration.map CorsRaw.withDefaults

/-- Go `int32(x)` applied to an `int`: wrap-around into `[-2^31, 2^31)`. -/
def toInt32 (x : Int) : Int :=
  (x + 2 ^ 31) % 2 ^ 32 - 2 ^ 31

/-- `azure.FlattenHealthcareAccessPolicies`: turns the optional access
policy list of an API response into a list of single-key maps, omitting
the `object_id` key when the entry's `ObjectID` pointer is nil. -/
def FlattenHealthcareAccessPolicies (policies : Option (List ServiceAccessPolicyEntry)) :
    List AccessPolicyRaw :=
  match policies with
  | none => []
  | some ps => ps.map fun policy => { object_id := policy.objectID }

/-- `expandAzureRMhealthcareapisAccessPolicyEntries`: reads
`access_policy_object_ids` and wraps each string in a
`ServiceAccessPolicyEntry`; always returns a non-nil pointer (`some`). -/
def expandAzureRMhealthcareapisAccessPolicyEntries (d : ResourceData) :
    Option (List ServiceAccessPolicyEntry) :=
  let accessPolicyObjectIds := d.access_policy_object_ids
  some (accessPolicyObjectIds.map fun objectIdsStr => { objectID := some objectIdsStr })

/-- `expandAzureRMhealthcareapisCorsConfiguration`: an empty block list
yields a pointer to an all-nil struct; otherwise the loop overwrites the
five locals on every iteration, so only the last block survives. -/
def expandAzureRMhealthcareapisCorsConfiguration (d : ResourceData) :
    Option ServiceCorsConfigurationInfo :=
  let corsConfigRaw := d.getCorsConfiguration
  if corsConfigRaw.length = 0 then
    some {}
  else
    let locals : CorsConfigAttr :=
      { allowed_origins := [], allowed_headers := [], allowed_methods := []
        max_age_in_seconds := 0, allow_credentials := true }
    let locals := corsConfigRaw.foldl (fun _ corsConfigAttr => corsConfigAttr) locals
    some { origins := some locals.allowed_origins
           headers := some locals.allowed_headers
           methods := some locals.allowed_methods
           maxAge := some (toInt32 locals.max_age_in_seconds)
           allowCredentials := some locals.allow_credentials }

/-- `expandAzureRMhealthcareapisAuthentication`: an empty block list yields
a pointer to an all-nil struct; otherwise the loop overwrites the three
locals on every iteration, so only the last block survives. -/
def expandAzureRMhealthcareapisAuthentication (d : ResourceData) :
    Option ServiceAuthenticationConfigurationInfo :=
  let authConfigRaw := d.getAuthConfiguration
  if authConfigRaw.length = 0 then
    some {}
  else
    let locals : AuthConfigAttr :=
      { authority := "", audience := "", smart_proxy_enabled := true }
    let locals := authConfigRaw.foldl (fun _ authConfigAttr => authConfigAttr) locals
    some { authority := some locals.authority
           audience := some locals.audience
           smartProxyEnabled := some locals.smart_proxy_enabled }

/-- The inline flattening of `authentication_configuration` in
`resourceArmHealthcareServiceRead`: a nil pointer yields an empty list,
otherwise one map whose keys are present exactly when the corresponding
API field is non-nil. -/
def flattenHealthcareAuthConfiguration
    (authConfig : Option ServiceAuthenticationConfigurationInfo) : List AuthRaw :=
  match authConfig with
  | none => []
  | some ac =>
      [{ authority := ac.authority
         audience := ac.audience
         smart_proxy_enabled := ac.smartProxyEnabled }]

/-- The inline flattening of `cors_configuration` in
`resourceArmHealthcareServiceRead`: a nil pointer yields an empty list,
otherwise one map whose keys are present exactly when the corresponding
API field is non-nil. -/
def flattenHealthcareCorsConfiguration
    (corsConfig : Option ServiceCorsConfigurationInfo) : List CorsRaw :=
  match corsConfig with
  | none => []
  | some cc =>
      [{ allowed_origins := cc.origins
         allowed_headers := cc.headers
         allowed_methods := cc.methods
         max_age_in_seconds := cc.maxAge
         allow_credentials := cc.allowCredentials }]

/-- Modelled from the spec: the lowercase `flattenHealthcareAccessPolicies`
called by `resourceArmHealthcareServiceRead` is absent from the sources;
per the spec, flatten produces the configuration-shaped value for
`access_policy_object_ids` (a list of object-id strings) and omits absent
remote fields rather than emitting defaults. -/
def flattenHealthcareAccessPoliciesConfig
    (policies : Option (List ServiceAccessPolicyEntry)) : List String :=
  match policies with
  | none => []
  | some ps => ps.filterMap fun policy => policy.objectID

/-- Parsed Azure resource identifier: `parseAzureResourceID`'s result,
a resource group plus path segments keyed by resource type. -/
structure AzureResourceID where
  resourceGroup : String := ""
  path : List (String × String) := []
deriving DecidableEq, Repr

/-- Go map lookup `id.Path[k]`: a missing key yields the empty string. -/
def pathLookup (path : List (String × String)) (k : String) : String :=
  match path.find? fun kv => kv.1 == k with
  | some kv => kv.2
  | none => ""

/-- Pairs up consecutive path segments `key/value/key/value/...`. -/
def segmentPairs : List String → List (String × String)
  | k :: v :: rest => (k, v) :: segmentPairs rest
  | _ => []

/-- Splitting on `/` by structural recursion over the character list
(the behavior of `strings.Split` on separator `/`). -/
def splitSlash : List Char → List (List Char)
  | [] => [[]]
  | c :: rest =>
      match splitSlash rest with
      | [] => [[c]]
      | s :: ss => if c = '/' then [] :: s :: ss else (c :: s) :: ss

/-- Modelled from the spec: `parseAzureResourceID` is absent from the
sources; per the spec the identifier is "an opaque string parsed into
`\x7bresourceGroup, path-segment-keyed-by-resource-type\x7d`", and a stored
identifier that cannot be parsed into its expected components is a fatal
error.  The identifier is a `/`-separated alternation of keys and values
starting with a leading `/` and containing a `resourceGroups` segment. -/
def parseAzureResourceID (s : String) : Except String AzureResourceID :=
  match (splitSlash s.data).map String.mk with
  | "" :: rest =>
      if rest.length = 0 ∨ rest.length % 2 ≠ 0 then
        .error ("Cannot parse Azure ID: " ++ s)
      else
        let pairs := segmentPairs rest
        match pairs.find? fun kv => kv.1 == "resourceGroups" with
        | some kv => .ok { resourceGroup := kv.2, path := pairs }
        | none => .error ("Cannot parse Azure ID, no resource group: " ++ s)
  | _ => .error ("Cannot parse Azure ID: " ++ s)

/-- Modelled from the spec: `utils.ResponseWasNotFound` is absent from the
sources; it classifies the benign "not found" transport outcome — a
response that is present and carries HTTP status 404. -/
def responseWasNotFound (statusCode : Option Int) : Bool :=
  match statusCode with
  | some c => c == 404
  | none => false

/-- Modelled from the spec: `tf.ImportAsExistsError` is absent from the
sources; per the spec it builds the deliberate already-exists error
"referencing the correct resource type and identifier". -/
def importAsExistsError (resourceName id : String) : String :=
  "A resource with the ID \"" ++ id ++ "\" already exists - to be managed via Terraform this resource needs to be imported into the State. Please see the resource documentation for \"" ++ resourceName ++ "\" for more information."

/-- Modelled from the spec: `azure.NormalizeLocation` is absent from the
sources; the shared helper lowercases the location and strips spaces. -/
def normalizeLocation (location : String) : String :=
  String.mk ((location.data.filter fun c => c ≠ ' ').map Char.toLower)

/-- Outcome of one `client.Get` call: the returned struct, the HTTP status
of its embedded response (when any), and the error (`none` for success).
In Go the struct is returned alongside the error, so both are kept. -/
structure GetResult where
  resp : ServicesDescription := {}
  statusCode : Option Int := none
  err : Option String := none
deriving Repr

/-- Oracle for the external Azure client and its long-running-operation
futures during a single handler invocation: the outcome observed at each
call site. -/
structure Transport where
  getExisting : GetResult := {}
  createOrUpdate : ServicesDescription → Except String Unit := fun _ => .ok ()
  waitCreate : Except String Unit := .ok ()
  getAfterCreate : GetResult := {}
  getRead : GetResult := {}
  deleteSubmit : Except String Unit := .ok ()
  waitDelete : Except String Unit := .ok ()

/-- Error message of the failed Read request (src line 280). -/
def readRequestErrorMsg (name resourceGroup e : String) : String :=
  "Error making Read request on Azure Healthcare Service \"" ++ name ++
    "\" (Resource Group \"" ++ resourceGroup ++ "\"): " ++ e

/-- Error message of the failed existence check (src line 216). -/
def existenceCheckErrorMsg (name resGroup e : String) : String :=
  "Error checking for presence of existing Healthcare Service \"" ++ name ++
    "\" (Resource Group \"" ++ resGroup ++ "\"): " ++ e

/-- Error message of a failed Create/Update submit or wait (src 241/245). -/
def createUpdateErrorMsg (name resGroup e : String) : String :=
  "Error Creating/Updating Healthcare Service \"" ++ name ++
    "\" (Resource Group \"" ++ resGroup ++ "\"): " ++ e

/-- Error message of the failed post-create re-fetch (src line 250). -/
def retrieveErrorMsg (name resGroup e : String) : String :=
  "Error Retrieving Healthcare Service \"" ++ name ++
    "\" (Resource Group \"" ++ resGroup ++ "\"): " ++ e

/-- Error message for a nil identifier on the re-fetched resource. -/
def cannotReadIdErrorMsg (name resGroup : String) : String :=
  "Cannot read Healthcare Service \"" ++ name ++
    "\" (resource group \"" ++ resGroup ++ "\") ID"

/-- Error message of a failed Delete submit (src line 362). -/
def deleteSubmitErrorMsg (name resGroup e : String) : String :=
  "Error deleting Healthcare Service \"" ++ name ++
    "\" (Resource Group \"" ++ resGroup ++ "\"): " ++ e

/-- Error message of a failed Delete wait (src line 366). -/
def deleteWaitErrorMsg (name resGroup e : String) : String :=
  "Error waiting for the deleting Healthcare Service \"" ++ name ++
    "\" (Resource Group \"" ++ resGroup ++ "\"): " ++ e

/-- The sequence of `d.Set` calls on the success path of
`resourceArmHealthcareServiceRead` (src lines 283-345): each schema field
is written from the response, conditionally on the corresponding remote
field being present; the stored identifier is never written here. -/
def readSetFields (resp : ServicesDescription) (name resourceGroup : String)
    (d : ResourceData) : ResourceData :=
  { d with
    name := name
    resource_group_name := resourceGroup
    location :=
      match resp.location with
      | some location => normalizeLocation location
      | none => d.location
    kind := if resp.kind ≠ "" then resp.kind else d.kind
    access_policy_object_ids :=
      match resp.properties with
      | some properties =>
          match properties.accessPolicies with
          | some config => flattenHealthcareAccessPoliciesConfig (some config)
          | none => d.access_policy_object_ids
      | none => d.access_policy_object_ids
    cosmosdb_throughput :=
      match resp.properties with
      | some properties =>
          match properties.cosmosDbConfiguration with
          | some config => config.offerThroughput.getD 0
          | none => d.cosmosdb_throughput
      | none => d.cosmosdb_throughput
    authentication_configuration :=
      match resp.properties with
      | some properties =>
          flattenHealthcareAuthConfiguration properties.authenticationConfiguration
      | none => d.authentication_configuration
    cors_configuration :=
      match resp.properties with
      | some properties =>
          flattenHealthcareCorsConfiguration properties.corsConfiguration
      | none => d.cors_configuration
    tags := resp.tags }

/-- `resourceArmHealthcareServiceRead` (src lines 261-348): parse the
stored identifier, fetch remote state; a not-found error clears the
identifier and succeeds, any other error is surfaced; on success the
remote fields are flattened back into the configuration. -/
def resourceArmHealthcareServiceRead (get : GetResult) (d : ResourceData) :
    Except String Unit × ResourceData :=
  match parseAzureResourceID d.id with
  | .error e => (.error e, d)
  | .ok rid =>
      let resourceGroup := rid.resourceGroup
      let name := pathLookup rid.path "services"
      match get.err with
      | some e =>
          if responseWasNotFound get.statusCode then
            (.ok (), { d with id := "" })
          else
            (.error (readRequestErrorMsg name resourceGroup e), d)
      | none => (.ok (), readSetFields get.resp name resourceGroup d)

/-- The import-protection check of `resourceArmHealthcareServiceCreateUpdate`
(src lines 212-223): a non-not-found Get error is fatal; otherwise a
non-nil, non-empty remote identifier raises the already-exists error. -/
def healthcareImportCheck (existing : GetResult) (name resGroup : String) :
    Except String Unit :=
  let step : Except String Unit :=
    match existing.err with
    | some e =>
        if ¬ responseWasNotFound existing.statusCode then
          .error (existenceCheckErrorMsg name resGroup e)
        else
          .ok ()
    | none => .ok ()
  match step with
  | .error e => .error e
  | .ok _ =>
      match existing.resp.id with
      | some i => if i ≠ "" then .error (importAsExistsError "azurerm_healthcare_service" i) else .ok ()
      | none => .ok ()

/-- The `healthcareapis.ServicesDescription` request body built by
`resourceArmHealthcareServiceCreateUpdate` (src lines 225-237). -/
def healthcareServiceDescription (d : ResourceData) : ServicesDescription :=
  { location := some (normalizeLocation d.location)
    tags := d.tags
    kind := d.kind
    properties := some
      { accessPolicies := expandAzureRMhealthcareapisAccessPolicyEntries d
        cosmosDbConfiguration := some { offerThroughput := some (toInt32 d.cosmosdb_throughput) }
        corsConfiguration := expandAzureRMhealthcareapisCorsConfiguration d
        authenticationConfiguration := expandAzureRMhealthcareapisAuthentication d } }

/-- `resourceArmHealthcareServiceCreateUpdate` (src lines 196-259):
optional import-protection check, submit `CreateOrUpdate`, wait for the
future, re-fetch, persist the identifier, then delegate to Read. -/
def resourceArmHealthcareServiceCreateUpdate (t : Transport)
    (requireResourcesToBeImported isNewResource : Bool) (d : ResourceData) :
    Except String Unit × ResourceData :=
  match (if requireResourcesToBeImported && isNewResource then
          healthcareImportCheck t.getExisting d.name d.resource_group_name
        else .ok ()) with
  | .error e => (.error e, d)
  | .ok _ =>
      match t.createOrUpdate (healthcareServiceDescription d) with
      | .error e => (.error (createUpdateErrorMsg d.name d.resource_group_name e), d)
      | .ok _ =>
          match t.waitCreate with
          | .error e => (.error (createUpdateErrorMsg d.name d.resource_group_name e), d)
          | .ok _ =>
              match t.getAfterCreate.err with
              | some e => (.error (retrieveErrorMsg d.name d.resource_group_name e), d)
              | none =>
                  match t.getAfterCreate.resp.id with
                  | none => (.error (cannotReadIdErrorMsg d.name d.resource_group_name), d)
                  | some readId =>
                      resourceArmHealthcareServiceRead t.getRead { d with id := readId }

/-- `resourceArmHealthcareServiceDelete` (src lines 350-370): parse the
stored identifier, submit Delete, wait for the future; the stored state
is never written. -/
def resourceArmHealthcareServiceDelete (t : Transport) (d : ResourceData) :
    Except String Unit × ResourceData :=
  match parseAzureResourceID d.id with
  | .error e => (.error ("Error Parsing Azure Resource ID: " ++ e), d)
  | .ok rid =>
      let resGroup := rid.resourceGroup
      let name := pathLookup rid.path "services"
      match t.deleteSubmit with
      | .error e => (.error (deleteSubmitErrorMsg name resGroup e), d)
      | .ok _ =>
          match t.waitDelete with
          | .error e => (.error (deleteWaitErrorMsg name resGroup e), d)
          | .ok _ => (.ok (), d)

/-- The schema constraints relevant to this resource: at least one access
policy object id (`MinItems: 1`), at most 5 CORS and 3 authentication
blocks (`MaxItems`), and `max_age_in_seconds` validated by
`validation.IntBetween(1, 2000000000)` whenever it is set. -/
def SchemaValid (d : ResourceData) : Prop :=
  1 ≤ d.access_policy_object_ids.length ∧
  d.cors_configuration.length ≤ 5 ∧
  d.authentication_configuration.length ≤ 3 ∧
  ∀ c ∈ d.cors_configuration,
    1 ≤ c.max_age_in_seconds.getD 1 ∧ c.max_age_in_seconds.getD 1 ≤ 2000000000

/-- A `cors_configuration` block in which every schema key is set. -/
def FullyPopulatedCors (c : CorsRaw) : Prop :=
  c.allowed_origins.isSome = true ∧ c.allowed_headers.isSome = true ∧
  c.allowed_methods.isSome = true ∧ c.max_age_in_seconds.isSome = true ∧
  c.allow_credentials.isSome = true

/-- An `authentication_configuration` block in which every key is set. -/
def FullyPopulatedAuth (a : AuthRaw) : Prop :=
  a.authority.isSome = true ∧ a.audience.isSome = true ∧
  a.smart_proxy_enabled.isSome = true

/-- Fixture: a well-formed stored identifier for this resource type. -/
def sampleResourceID : String :=
  "/subscriptions/sub1/resourceGroups/group1/providers/Microsoft.HealthcareApis/services/service1"

/-- Fixture: the parse of `sampleResourceID`. -/
def sampleParsedID : AzureResourceID :=
  { resourceGroup := "group1"
    path := [("subscriptions", "sub1"), ("resourceGroups", "group1"),
             ("providers", "Microsoft.HealthcareApis"), ("services", "service1")] }

/-- Fixture: the spec's example configuration — one access policy object
id and no `cors_configuration` or `authentication_configuration` block. -/
def singlePolicyNoBlocksConfig : ResourceData :=
  { id := ""
    name := "service1"
    resource_group_name := "group1"
    location := "westus"
    kind := "fhir"
    cosmosdb_throughput := 1000
    access_policy_object_ids := ["11111111-1111-1111-1111-111111111111"]
    authentication_configuration := []
    cors_configuration := []
    tags := [] }

/-- Fixture: a fully populated `cors_configuration` block. -/
def sampleCorsBlock : CorsRaw :=
  { allowed_origins := some ["https://example.com"]
    allowed_headers := some ["x-custom"]
    allowed_methods := some ["GET", "PUT"]
    max_age_in_seconds := some 500
    allow_credentials := some true }

/-- Fixture: a fully populated `authentication_configuration` block. -/
def sampleAuthBlock : AuthRaw :=
  { authority := some "https://login.microsoftonline.com/tenant"
    audience := some "https://azurehealthcareapis.com"
    smart_proxy_enabled := some true }

/-- Fixture: a configuration with one fully populated CORS block and one
fully populated authentication block. -/
def populatedBlocksConfig : ResourceData :=
  { id := ""
    name := "service1"
    resource_group_name := "group1"
    location := "West US"
    kind := "fhir"
    cosmosdb_throughput := 1000
    access_policy_object_ids := ["11111111-1111-1111-1111-111111111111"]
    authentication_configuration := [sampleAuthBlock]
    cors_configuration := [sampleCorsBlock]
    tags := [] }

theorem foldl_overwrite {α : Type} (l : List α) (a init : α) :
    List.foldl (fun _ x => x) init (l ++ [a]) = a := by
  induction l generalizing init with
  | nil => rfl
  | cons b bs ih =>
      simp only [List.cons_append, List.foldl_cons]
      exact ih b

theorem toInt32_eq_self {x : Int} (h1 : 0 ≤ x) (h2 : x < 2147483648) :
    toInt32 x = x := by
  unfold toInt32
  omega

/-- C2: expanding the configuration whose `access_policy_object_ids` is
exactly `["11111111-1111-1111-1111-111111111111"]` and whose CORS and
authentication block lists are empty yields a non-nil access-policy list
pointer with exactly that one entry, and non-nil CORS/authentication
sub-struct pointers with every field unset. -/
theorem expand_single_policy_empty_blocks :
    expandAzureRMhealthcareapisAccessPolicyEntries singlePolicyNoBlocksConfig =
      some [{ objectID := some "11111111-1111-1111-1111-111111111111" }] ∧
    expandAzureRMhealthcareapisCorsConfiguration singlePolicyNoBlocksConfig =
      some { origins := none, headers := none, methods := none
             maxAge := none, allowCredentials := none } ∧
    expandAzureRMhealthcareapisAuthentication singlePolicyNoBlocksConfig =
      some { authority := none, audience := none, smartProxyEnabled := none } := by
  refine ⟨rfl, rfl, rfl⟩

/-- C10: `FlattenHealthcareAccessPolicies` is total and structure
preserving — a nil pointer flattens to the empty list, a non-nil list
flattens to a list of the same length whose i-th element is derived from
the i-th input entry in order; and the expand direction always returns a
non-nil pointer to a list of the same length and order as the object-id
list. -/
theorem flatten_expand_access_policies_structure :
    FlattenHealthcareAccessPolicies none = [] ∧
    (∀ ps : List ServiceAccessPolicyEntry,
      (FlattenHealthcareAccessPolicies (some ps)).length = ps.length) ∧
    (∀ (ps : List ServiceAccessPolicyEntry) (i : Nat),
      (FlattenHealthcareAccessPolicies (some ps))[i]? =
        ps[i]?.map fun policy => { object_id := policy.objectID }) ∧
    (∀ d : ResourceData, ∃ l,
      expandAzureRMhealthcareapisAccessPolicyEntries d = some l ∧
      l.length = d.access_policy_object_ids.length ∧
      ∀ i : Nat, l[i]? =
        d.access_policy_object_ids[i]?.map fun s => { objectID := some s }) := by
  refine ⟨rfl, ?_, ?_, ?_⟩
  · intro ps
    simp [FlattenHealthcareAccessPolicies]
  · intro ps i
    simp [FlattenHealthcareAccessPolicies, List.getElem?_map]
  · intro d
    refine ⟨_, rfl, ?_, ?_⟩
    · simp [List.length_map]
    · intro i
      simp [List.getElem?_map]

/-- C7: flatten never introduces an absent field — an access-policy entry
with nil `ObjectID` yields a map without the `object_id` key, and nil
authority, audience, smart-proxy or CORS fields yield maps without the
corresponding keys. -/
theorem flatten_omits_absent_fields :
    (∀ p : ServiceAccessPolicyEntry, p.objectID = none →
      FlattenHealthcareAccessPolicies (some [p]) = [{ object_id := none }]) ∧
    (∀ (ac : ServiceAuthenticationConfigurationInfo) (m : AuthRaw),
      m ∈ flattenHealthcareAuthConfiguration (some ac) →
        (ac.authority = none → m.authority = none) ∧
        (ac.audience = none → m.audience = none) ∧
        (ac.smartProxyEnabled = none → m.smart_proxy_enabled = none)) ∧
    (∀ (cc : ServiceCorsConfigurationInfo) (m : CorsRaw),
      m ∈ flattenHealthcareCorsConfiguration (some cc) →
        (cc.origins = none → m.allowed_origins = none) ∧
        (cc.headers = none → m.allowed_headers = none) ∧
        (cc.methods = none → m.allowed_methods = none) ∧
        (cc.maxAge = none → m.max_age_in_seconds = none) ∧
        (cc.allowCredentials = none → m.allow_credentials = none)) := by
  refine ⟨?_, ?_, ?_⟩
  · intro p hp
    simp [FlattenHealthcareAccessPolicies, hp]
  · intro ac m hm
    simp only [flattenHealthcareAuthConfiguration, List.mem_singleton] at hm
    subst hm
    exact ⟨fun h => h, fun h => h, fun h => h⟩
  · intro cc m hm
    simp only [flattenHealthcareCorsConfiguration, List.mem_singleton] at hm
    subst hm
    exact ⟨fun h => h, fun h => h, fun h => h, fun h => h, fun h => h⟩

/-- Witness for C7 at concrete inputs: an all-nil entry and all-nil
structs flatten to maps with every key absent. -/
theorem flatten_omits_absent_fields_witness :
    FlattenHealthcareAccessPolicies (some [{ objectID := none }]) = [{ object_id := none }] ∧
    (({} : AuthRaw).authority = none) ∧
    (({} : CorsRaw).max_age_in_seconds = none) := by
  refine ⟨flatten_omits_absent_fields.1 { objectID := none } rfl, ?_, ?_⟩
  · exact (flatten_omits_absent_fields.2.1 {} {} (by simp [flattenHealthcareAuthConfiguration])).1 rfl
  · exact (flatten_omits_absent_fields.2.2 {} {} (by simp [flattenHealthcareCorsConfiguration])).2.2.2.1 rfl

/-- C6: when a `cors_configuration` or `authentication_configuration`
list holds more than one block, expand produces the sub-struct of the
last block only — the earlier blocks have no effect on the output. -/
theorem expand_keeps_last_block :
    (∀ (d : ResourceData) (l : List CorsRaw) (c : CorsRaw),
      l ≠ [] → d.cors_configuration = l ++ [c] →
      expandAzureRMhealthcareapisCorsConfiguration d =
        expandAzureRMhealthcareapisCorsConfiguration
          { d with cors_configuration := [c] }) ∧
    (∀ (d : ResourceData) (l : List AuthRaw) (a : AuthRaw),
      l ≠ [] → d.authentication_configuration = l ++ [a] →
      expandAzureRMhealthcareapisAuthentication d =
        expandAzureRMhealthcareapisAuthentication
          { d with authentication_configuration := [a] }) := by
  constructor
  · intro d l c _ hd
    simp only [expandAzureRMhealthcareapisCorsConfiguration,
      ResourceData.getCorsConfiguration, hd]
    simp [List.map_append, foldl_overwrite]
  · intro d l a _ hd
    simp only [expandAzureRMhealthcareapisAuthentication,
      ResourceData.getAuthConfiguration, hd]
    simp [List.map_append, foldl_overwrite]

/-- Witness for C6: with two CORS blocks (an all-defaults one followed by
`sampleCorsBlock`) and two authentication blocks, expand agrees with the
expansion of the last block alone. -/
theorem expand_keeps_last_block_witness :
    expandAzureRMhealthcareapisCorsConfiguration
        { populatedBlocksConfig with cors_configuration := [{}, sampleCorsBlock] } =
      expandAzureRMhealthcareapisCorsConfiguration
        { populatedBlocksConfig with cors_configuration := [sampleCorsBlock] } ∧
    expandAzureRMhealthcareapisAuthentication
        { populatedBlocksConfig with authentication_configuration := [{}, sampleAuthBlock] } =
      expandAzureRMhealthcareapisAuthentication
        { populatedBlocksConfig with authentication_configuration := [sampleAuthBlock] } := by
  constructor
  · exact expand_keeps_last_block.1
      { populatedBlocksConfig with cors_configuration := [{}, sampleCorsBlock] }
      [{}] sampleCorsBlock (by simp) rfl
  · exact expand_keeps_last_block.2
      { populatedBlocksConfig with authentication_configuration := [{}, sampleAuthBlock] }
      [{}] sampleAuthBlock (by simp) rfl

/-- C8: Delete never writes the stored state — whatever the parse, submit
and wait outcomes, the resulting state is the input state; and a Delete
whose submit fails (as on a repeated Delete of an already-deleted
resource) surfaces the transport's error. -/
theorem delete_preserves_state :
    ∀ (t : Transport) (d : ResourceData),
      (resourceArmHealthcareServiceDelete t d).2 = d ∧
      (∀ (rid : AzureResourceID) (e : String),
        parseAzureResourceID d.id = .ok rid → t.deleteSubmit = .error e →
        (resourceArmHealthcareServiceDelete t d).1 =
          .error (deleteSubmitErrorMsg (pathLookup rid.path "services") rid.resourceGroup e)) := by
  intro t d
  constructor
  · unfold resourceArmHealthcareServiceDelete
    cases hp : parseAzureResourceID d.id with
    | error e => rfl
    | ok rid =>
        cases hs : t.deleteSubmit with
        | error e => rfl
        | ok u =>
            cases hw : t.waitDelete with
            | error e => rfl
            | ok v => rfl
  · intro rid e hp hs
    unfold resourceArmHealthcareServiceDelete
    rw [hp, hs]

/-- Witness for C8: a Delete against the sample identifier whose submit
fails with a not-found-derived transport error leaves the state intact
and surfaces the wrapped error. -/
theorem delete_preserves_state_witness :
    (resourceArmHealthcareServiceDelete
        { deleteSubmit := .error "ResourceNotFound" }
        { singlePolicyNoBlocksConfig with id := sampleResourceID }).2 =
      { singlePolicyNoBlocksConfig with id := sampleResourceID } ∧
    (resourceArmHealthcareServiceDelete
        { deleteSubmit := .error "ResourceNotFound" }
        { singlePolicyNoBlocksConfig with id := sampleResourceID }).1 =
      .error (deleteSubmitErrorMsg "service1" "group1" "ResourceNotFound") := by
  constructor
  · exact (delete_preserves_state { deleteSubmit := .error "ResourceNotFound" }
      { singlePolicyNoBlocksConfig with id := sampleResourceID }).1
  · exact (delete_preserves_state { deleteSubmit := .error "ResourceNotFound" }
      { singlePolicyNoBlocksConfig with id := sampleResourceID }).2
      sampleParsedID "ResourceNotFound" rfl rfl

/-- C9: a stored identifier that does not parse makes Read and Delete
fail before any transport call — the result does not depend on the
transport oracle at all — and leaves the stored state unmodified. -/
theorem malformed_id_read_delete_noop :
    ∀ (d : ResourceData) (get : GetResult) (t : Transport) (e : String),
      parseAzureResourceID d.id = .error e →
      resourceArmHealthcareServiceRead get d = (.error e, d) ∧
      resourceArmHealthcareServiceDelete t d =
        (.error ("Error Parsing Azure Resource ID: " ++ e), d) := by
  intro d get t e hp
  constructor
  · unfold resourceArmHealthcareServiceRead
    rw [hp]
  · unfold resourceArmHealthcareServiceDelete
    rw [hp]

/-- Witness for C9: the unparseable identifier `"not-an-azure-id"` makes
Read and Delete return the parse error with the state unchanged, for a
transport oracle whose calls would all succeed. -/
theorem malformed_id_read_delete_noop_witness :
    resourceArmHealthcareServiceRead {}
        { singlePolicyNoBlocksConfig with id := "not-an-azure-id" } =
      (.error "Cannot parse Azure ID: not-an-azure-id",
        { singlePolicyNoBlocksConfig with id := "not-an-azure-id" }) ∧
    resourceArmHealthcareServiceDelete {}
        { singlePolicyNoBlocksConfig with id := "not-an-azure-id" } =
      (.error ("Error Parsing Azure Resource ID: " ++ "Cannot parse Azure ID: not-an-azure-id"),
        { singlePolicyNoBlocksConfig with id := "not-an-azure-id" }) :=
  malformed_id_read_delete_noop
    { singlePolicyNoBlocksConfig with id := "not-an-azure-id" } {} {}
    "Cannot parse Azure ID: not-an-azure-id" rfl

/-- C3: when the stored identifier parses and the remote Get fails, a
not-found failure makes Read clear the identifier and succeed, while any
other failure makes Read surface a wrapped error with the rest of the
state untouched. -/
theorem read_not_found_clears_id :
    ∀ (d : ResourceData) (get : GetResult) (rid : AzureResourceID) (e : String),
      parseAzureResourceID d.id = .ok rid →
      get.err = some e →
      (responseWasNotFound get.statusCode = true →
        resourceArmHealthcareServiceRead get d = (.ok (), { d with id := "" })) ∧
      (responseWasNotFound get.statusCode = false →
        resourceArmHealthcareServiceRead get d =
          (.error (readRequestErrorMsg (pathLookup rid.path "services")
            rid.resourceGroup e), d)) := by
  intro d get rid e hp he
  constructor
  · intro hnf
    unfold resourceArmHealthcareServiceRead
    rw [hp, he]
    simp [hnf]
  · intro hnf
    unfold resourceArmHealthcareServiceRead
    rw [hp, he]
    simp [hnf]

/-- Witness for C3: against the sample identifier, a 404 Get clears the
identifier and returns success, and a 500 Get surfaces the wrapped error
with the state unchanged. -/
theorem read_not_found_clears_id_witness :
    resourceArmHealthcareServiceRead
        { err := some "NotFound", statusCode := some 404 }
        { singlePolicyNoBlocksConfig with id := sampleResourceID } =
      (.ok (), { singlePolicyNoBlocksConfig with id := "" }) ∧
    resourceArmHealthcareServiceRead
        { err := some "InternalServerError", statusCode := some 500 }
        { singlePolicyNoBlocksConfig with id := sampleResourceID } =
      (.error (readRequestErrorMsg "service1" "group1" "InternalServerError"),
        { singlePolicyNoBlocksConfig with id := sampleResourceID }) := by
  constructor
  · exact (read_not_found_clears_id
      { singlePolicyNoBlocksConfig with id := sampleResourceID }
      { err := some "NotFound", statusCode := some 404 }
      sampleParsedID "NotFound" rfl rfl).1 rfl
  · exact (read_not_found_clears_id
      { singlePolicyNoBlocksConfig with id := sampleResourceID }
      { err := some "InternalServerError", statusCode := some 500 }
      sampleParsedID "InternalServerError" rfl rfl).2 rfl

/-- C4: on a new resource with import protection enabled, a preliminary
Get that succeeds with a non-nil, non-empty identifier makes Create
return the already-exists error naming `azurerm_healthcare_service` and
that identifier, with the state unchanged; the equality holds for every
transport oracle, so no CreateOrUpdate outcome can influence it — the
submit never happens. -/
theorem create_import_protection_already_exists :
    ∀ (t : Transport) (d : ResourceData) (i : String),
      t.getExisting.err = none →
      t.getExisting.resp.id = some i →
      i ≠ "" →
      resourceArmHealthcareServiceCreateUpdate t true true d =
        (.error (importAsExistsError "azurerm_healthcare_service" i), d) := by
  intro t d i herr hid hi
  unfold resourceArmHealthcareServiceCreateUpdate
  have hcheck : healthcareImportCheck t.getExisting d.name d.resource_group_name =
      .error (importAsExistsError "azurerm_healthcare_service" i) := by
    unfold healthcareImportCheck
    rw [herr, hid]
    simp [hi]
  simp [hcheck]

/-- Witness for C4: with a remote resource already present under the
sample identifier, Create with import protection on a new resource fails
with the already-exists error and no state change, for a transport whose
CreateOrUpdate would have succeeded. -/
theorem create_import_protection_already_exists_witness :
    resourceArmHealthcareServiceCreateUpdate
        { getExisting := { resp := { id := some sampleResourceID } } }
        true true singlePolicyNoBlocksConfig =
      (.error (importAsExistsError "azurerm_healthcare_service" sampleResourceID),
        singlePolicyNoBlocksConfig) :=
  create_import_protection_already_exists
    { getExisting := { resp := { id := some sampleResourceID } } }
    singlePolicyNoBlocksConfig sampleResourceID rfl rfl (by decide)

theorem read_id_eq_or_empty (get : GetResult) (d : ResourceData) :
    (resourceArmHealthcareServiceRead get d).2.id = d.id ∨
    (resourceArmHealthcareServiceRead get d).2.id = "" := by
  unfold resourceArmHealthcareServiceRead
  cases hp : parseAzureResourceID d.id with
  | error e => exact .inl rfl
  | ok rid =>
      cases he : get.err with
      | none => exact .inl rfl
      | some e =>
          by_cases hnf : responseWasNotFound get.statusCode = true
          · right
            simp [hnf]
          · left
            simp [hnf]

theorem createUpdate_outcomes (t : Transport) (req isNew : Bool) (d : ResourceData) :
    (∃ e, resourceArmHealthcareServiceCreateUpdate t req isNew d = (.error e, d) ∧
      (if req && isNew then
        healthcareImportCheck t.getExisting d.name d.resource_group_name
      else .ok ()) = .error e) ∨
    (∃ e, t.createOrUpdate (healthcareServiceDescription d) = .error e ∧
      resourceArmHealthcareServiceCreateUpdate t req isNew d =
        (.error (createUpdateErrorMsg d.name d.resource_group_name e), d)) ∨
    (t.createOrUpdate (healthcareServiceDescription d) = .ok () ∧
      ∃ e, t.waitCreate = .error e ∧
      resourceArmHealthcareServiceCreateUpdate t req isNew d =
        (.error (createUpdateErrorMsg d.name d.resource_group_name e), d)) ∨
    (t.createOrUpdate (healthcareServiceDescription d) = .ok () ∧ t.waitCreate = .ok () ∧
      ∃ e, t.getAfterCreate.err = some e ∧
      resourceArmHealthcareServiceCreateUpdate t req isNew d =
        (.error (retrieveErrorMsg d.name d.resource_group_name e), d)) ∨
    (t.createOrUpdate (healthcareServiceDescription d) = .ok () ∧ t.waitCreate = .ok () ∧
      t.getAfterCreate.err = none ∧ t.getAfterCreate.resp.id = none ∧
      resourceArmHealthcareServiceCreateUpdate t req isNew d =
        (.error (cannotReadIdErrorMsg d.name d.resource_group_name), d)) ∨
    (∃ readId, t.createOrUpdate (healthcareServiceDescription d) = .ok () ∧
      t.waitCreate = .ok () ∧ t.getAfterCreate.err = none ∧
      t.getAfterCreate.resp.id = some readId ∧
      resourceArmHealthcareServiceCreateUpdate t req isNew d =
        resourceArmHealthcareServiceRead t.getRead { d with id := readId }) := by
  cases hchk : (if req && isNew then
      healthcareImportCheck t.getExisting d.name d.resource_group_name
    else .ok ()) with
  | error e =>
      refine .inl ⟨e, ?_, rfl⟩
      unfold resourceArmHealthcareServiceCreateUpdate
      rw [hchk]
  | ok u =>
      cases u
      cases hco : t.createOrUpdate (healthcareServiceDescription d) with
      | error e =>
          refine .inr (.inl ⟨e, rfl, ?_⟩)
          unfold resourceArmHealthcareServiceCreateUpdate
          rw [hchk, hco]
      | ok u =>
          cases u
          cases hw : t.waitCreate with
          | error e =>
              refine .inr (.inr (.inl ⟨rfl, e, rfl, ?_⟩))
              unfold resourceArmHealthcareServiceCreateUpdate
              rw [hchk, hco, hw]
          | ok u =>
              cases u
              cases he : t.getAfterCreate.err with
              | some e =>
                  refine .inr (.inr (.inr (.inl ⟨rfl, rfl, e, rfl, ?_⟩)))
                  unfold resourceArmHealthcareServiceCreateUpdate
                  rw [hchk, hco, hw, he]
              | none =>
                  cases hid : t.getAfterCreate.resp.id with
                  | none =>
                      refine .inr (.inr (.inr (.inr (.inl ⟨rfl, rfl, rfl, rfl, ?_⟩))))
                      unfold resourceArmHealthcareServiceCreateUpdate
                      rw [hchk, hco, hw, he, hid]
                  | some readId =>
                      refine .inr (.inr (.inr (.inr (.inr ⟨readId, rfl, rfl, rfl, rfl, ?_⟩))))
                      unfold resourceArmHealthcareServiceCreateUpdate
                      rw [hchk, hco, hw, he, hid]

/-- C5: in Create/Update the stored identifier acquires a new non-empty
value only when the submit succeeded, the long-running operation
completed successfully and the re-fetch returned exactly that non-nil
identifier; and on each enumerated failure (submit, wait, re-fetch, nil
re-fetched identifier) the handler returns an error with the state — in
particular the identifier — unchanged. -/
theorem create_update_persists_id_only_after_success :
    ∀ (t : Transport) (req isNew : Bool) (d : ResourceData),
      (((resourceArmHealthcareServiceCreateUpdate t req isNew d).2.id ≠ d.id ∧
        (resourceArmHealthcareServiceCreateUpdate t req isNew d).2.id ≠ "") →
        t.createOrUpdate (healthcareServiceDescription d) = .ok () ∧
        t.waitCreate = .ok () ∧
        t.getAfterCreate.err = none ∧
        t.getAfterCreate.resp.id =
          some (resourceArmHealthcareServiceCreateUpdate t req isNew d).2.id) ∧
      (∀ e, t.createOrUpdate (healthcareServiceDescription d) = .error e →
        (resourceArmHealthcareServiceCreateUpdate t req isNew d).2 = d ∧
        ∃ m, (resourceArmHealthcareServiceCreateUpdate t req isNew d).1 = .error m) ∧
      (∀ e, t.waitCreate = .error e →
        (resourceArmHealthcareServiceCreateUpdate t req isNew d).2 = d ∧
        ∃ m, (resourceArmHealthcareServiceCreateUpdate t req isNew d).1 = .error m) ∧
      (∀ e, t.getAfterCreate.err = some e →
        (resourceArmHealthcareServiceCreateUpdate t req isNew d).2 = d ∧
        ∃ m, (resourceArmHealthcareServiceCreateUpdate t req isNew d).1 = .error m) ∧
      (t.getAfterCreate.resp.id = none →
        (resourceArmHealthcareServiceCreateUpdate t req isNew d).2 = d ∧
        ∃ m, (resourceArmHealthcareServiceCreateUpdate t req isNew d).1 = .error m) := by
  intro t req isNew d
  rcases createUpdate_outcomes t req isNew d with
    ⟨e, hres, _⟩ | ⟨e, hco, hres⟩ | ⟨hco, e, hw, hres⟩ | ⟨hco, hw, e, he, hres⟩ |
    ⟨hco, hw, he, hid, hres⟩ | ⟨readId, hco, hw, he, hid, hres⟩
  · refine ⟨fun h => absurd (by rw [hres]) h.1, ?_, ?_, ?_, ?_⟩
    · exact fun e2 _ => ⟨by rw [hres], e, by rw [hres]⟩
    · exact fun e2 _ => ⟨by rw [hres], e, by rw [hres]⟩
    · exact fun e2 _ => ⟨by rw [hres], e, by rw [hres]⟩
    · exact fun _ => ⟨by rw [hres], e, by rw [hres]⟩
  · refine ⟨fun h => absurd (by rw [hres]) h.1, ?_, ?_, ?_, ?_⟩
    · exact fun e2 _ => ⟨by rw [hres], _, by rw [hres]⟩
    · exact fun e2 _ => ⟨by rw [hres], _, by rw [hres]⟩
    · exact fun e2 _ => ⟨by rw [hres], _, by rw [hres]⟩
    · exact fun _ => ⟨by rw [hres], _, by rw [hres]⟩
  · refine ⟨fun h => absurd (by rw [hres]) h.1, ?_, ?_, ?_, ?_⟩
    · intro e2 hco2
      rw [hco] at hco2
      exact absurd hco2 (by simp)
    · exact fun e2 _ => ⟨by rw [hres], _, by rw [hres]⟩
    · exact fun e2 _ => ⟨by rw [hres], _, by rw [hres]⟩
    · exact fun _ => ⟨by rw [hres], _, by rw [hres]⟩
  · refine ⟨fun h => absurd (by rw [hres]) h.1, ?_, ?_, ?_, ?_⟩
    · intro e2 hco2
      rw [hco] at hco2
      exact absurd hco2 (by simp)
    · intro e2 hw2
      rw [hw] at hw2
      exact absurd hw2 (by simp)
    · exact fun e2 _ => ⟨by rw [hres], _, by rw [hres]⟩
    · exact fun _ => ⟨by rw [hres], _, by rw [hres]⟩
  · refine ⟨fun h => absurd (by rw [hres]) h.1, ?_, ?_, ?_, ?_⟩
    · intro e2 hco2
      rw [hco] at hco2
      exact absurd hco2 (by simp)
    · intro e2 hw2
      rw [hw] at hw2
      exact absurd hw2 (by simp)
    · intro e2 he2
      rw [he] at he2
      exact absurd he2 (by simp)
    · exact fun _ => ⟨by rw [hres], _, by rw [hres]⟩
  · constructor
    · intro h
      have hcase := read_id_eq_or_empty t.getRead { d with id := readId }
      rw [← hres] at hcase
      have hfinal : (resourceArmHealthcareServiceCreateUpdate t req isNew d).2.id = readId := by
        rcases hcase with hsame | hempty
        · exact hsame
        · exact absurd hempty h.2
      rw [hfinal]
      exact ⟨hco, hw, he, hid⟩
    · refine ⟨?_, ?_, ?_, ?_⟩
      · intro e2 hco2
        rw [hco] at hco2
        exact absurd hco2 (by simp)
      · intro e2 hw2
        rw [hw] at hw2
        exact absurd hw2 (by simp)
      · intro e2 he2
        rw [he] at he2
        exact absurd he2 (by simp)
      · intro hid2
        rw [hid] at hid2
        exact absurd hid2 (by simp)

/-- Witness for C5: a failing submit leaves the state unchanged and
errors; and on a fully successful run against the sample identifier the
re-fetched identifier is exactly the one persisted. -/
theorem create_update_persists_id_witness :
    ((resourceArmHealthcareServiceCreateUpdate
        { createOrUpdate := fun _ => Except.error "boom" } false false
        singlePolicyNoBlocksConfig).2 = singlePolicyNoBlocksConfig ∧
      ∃ m, (resourceArmHealthcareServiceCreateUpdate
        { createOrUpdate := fun _ => Except.error "boom" } false false
        singlePolicyNoBlocksConfig).1 = Except.error m) ∧
    (({ getAfterCreate := { resp := { id := some sampleResourceID } } } :
        Transport).createOrUpdate
          (healthcareServiceDescription singlePolicyNoBlocksConfig) = Except.ok () ∧
      ({ getAfterCreate := { resp := { id := some sampleResourceID } } } :
        Transport).waitCreate = Except.ok () ∧
      ({ getAfterCreate := { resp := { id := some sampleResourceID } } } :
        Transport).getAfterCreate.err = none ∧
      ({ getAfterCreate := { resp := { id := some sampleResourceID } } } :
        Transport).getAfterCreate.resp.id =
        some (resourceArmHealthcareServiceCreateUpdate
          { getAfterCreate := { resp := { id := some sampleResourceID } } }
          false false singlePolicyNoBlocksConfig).2.id) := by
  constructor
  · exact (create_update_persists_id_only_after_success
      { createOrUpdate := fun _ => Except.error "boom" } false false
      singlePolicyNoBlocksConfig).2.1 "boom" rfl
  · exact (create_update_persists_id_only_after_success
      { getAfterCreate := { resp := { id := some sampleResourceID } } }
      false false singlePolicyNoBlocksConfig).1 ⟨by decide, by decide⟩

/-- Counterexample to C1 as stated: the spec's example configuration has
no `cors_configuration` block, yet flattening the result of expanding it
produces a (single, all-keys-absent) `cors_configuration` block — the
absent block does not stay absent across the round trip, because expand
emits a present-but-empty struct and flatten emits one block for every
non-nil struct pointer. -/
theorem healthcare_roundtrip_counterexample :
    singlePolicyNoBlocksConfig.cors_configuration = [] ∧
    flattenHealthcareCorsConfiguration
        (expandAzureRMhealthcareapisCorsConfiguration singlePolicyNoBlocksConfig) ≠
      ([] : List CorsRaw) := by
  exact ⟨rfl, by decide⟩

/-- C1 (amended): for a schema-valid configuration, expanding and then
flattening reproduces the populated fields — the
`access_policy_object_ids` list round-trips to the same list, and a
single fully populated CORS or authentication block round-trips to
itself — but a configuration with no CORS or authentication block yields
after the round trip a single block with every key absent, rather than
no block. -/
theorem healthcare_roundtrip_amended :
    ∀ d : ResourceData, SchemaValid d →
      flattenHealthcareAccessPoliciesConfig
          (expandAzureRMhealthcareapisAccessPolicyEntries d) =
        d.access_policy_object_ids ∧
      (d.cors_configuration = [] →
        flattenHealthcareCorsConfiguration
            (expandAzureRMhealthcareapisCorsConfiguration d) = [{}]) ∧
      (d.authentication_configuration = [] →
        flattenHealthcareAuthConfiguration
            (expandAzureRMhealthcareapisAuthentication d) = [{}]) ∧
      (∀ c, d.cors_configuration = [c] → FullyPopulatedCors c →
        flattenHealthcareCorsConfiguration
            (expandAzureRMhealthcareapisCorsConfiguration d) = [c]) ∧
      (∀ a, d.authentication_configuration = [a] → FullyPopulatedAuth a →
        flattenHealthcareAuthConfiguration
            (expandAzureRMhealthcareapisAuthentication d) = [a]) := by
  intro d hvalid
  refine ⟨?_, ?_, ?_, ?_, ?_⟩
  · simp only [flattenHealthcareAccessPoliciesConfig,
      expandAzureRMhealthcareapisAccessPolicyEntries]
    generalize d.access_policy_object_ids = l
    induction l with
    | nil => rfl
    | cons x xs ih =>
        simp only [List.map_cons, List.filterMap_cons] at ih ⊢
        simpa using ih
  · intro hc
    simp [expandAzureRMhealthcareapisCorsConfiguration,
      ResourceData.getCorsConfiguration, hc, flattenHealthcareCorsConfiguration]
  · intro ha
    simp [expandAzureRMhealthcareapisAuthentication,
      ResourceData.getAuthConfiguration, ha, flattenHealthcareAuthConfiguration]
  · intro c hc hfull
    obtain ⟨c1, c2, c3, c4, c5⟩ := c
    obtain ⟨f1, f2, f3, f4, f5⟩ := hfull
    obtain ⟨o, rfl⟩ := Option.isSome_iff_exists.mp f1
    obtain ⟨hd, rfl⟩ := Option.isSome_iff_exists.mp f2
    obtain ⟨me, rfl⟩ := Option.isSome_iff_exists.mp f3
    obtain ⟨ma, rfl⟩ := Option.isSome_iff_exists.mp f4
    obtain ⟨cr, rfl⟩ := Option.isSome_iff_exists.mp f5
    have hbound := hvalid.2.2.2 _ (by rw [hc]; exact List.mem_singleton_self _)
    simp only [Option.getD_some] at hbound
    have hto : toInt32 ma = ma := toInt32_eq_self (by omega) (by omega)
    simp [expandAzureRMhealthcareapisCorsConfiguration,
      ResourceData.getCorsConfiguration, hc, CorsRaw.withDefaults,
      flattenHealthcareCorsConfiguration, hto]
  · intro a ha hfull
    obtain ⟨a1, a2, a3⟩ := a
    obtain ⟨f1, f2, f3⟩ := hfull
    obtain ⟨au, rfl⟩ := Option.isSome_iff_exists.mp f1
    obtain ⟨ad, rfl⟩ := Option.isSome_iff_exists.mp f2
    obtain ⟨sp, rfl⟩ := Option.isSome_iff_exists.mp f3
    simp [expandAzureRMhealthcareapisAuthentication,
      ResourceData.getAuthConfiguration, ha, AuthRaw.withDefaults,
      flattenHealthcareAuthConfiguration]

/-- Witness for C1 (amended): the populated fixture configuration — one
access policy id, one fully populated CORS block and one fully populated
authentication block — round-trips exactly. -/
theorem healthcare_roundtrip_amended_witness :
    flattenHealthcareAccessPoliciesConfig
        (expandAzureRMhealthcareapisAccessPolicyEntries populatedBlocksConfig) =
      populatedBlocksConfig.access_policy_object_ids ∧
    flattenHealthcareCorsConfiguration
        (expandAzureRMhealthcareapisCorsConfiguration populatedBlocksConfig) =
      [sampleCorsBlock] ∧
    flattenHealthcareAuthConfiguration
        (expandAzureRMhealthcareapisAuthentication populatedBlocksConfig) =
      [sampleAuthBlock] := by
  have h := healthcare_roundtrip_amended populatedBlocksConfig
    (by unfold SchemaValid; decide)
  exact ⟨h.1, h.2.2.2.1 sampleCorsBlock rfl (by unfold FullyPopulatedCors; decide),
    h.2.2.2.2 sampleAuthBlock rfl (by unfold FullyPopulatedAuth; decide)⟩
